import Mathlib

/-!
Verification of `anomalib`'s transform-resolver
(`src/anomalib/data/utils/transforms.py`) and logger-resolver
(`src/anomalib/loggers/__init__.py`) against their natural-language
specification.  The Python functions are shallowly embedded as pure Lean
functions: exceptions become `Except` / explicit outcome types, the
in-place mutation of the configuration object becomes explicit state
passing, and the external `albumentations` library is abstracted as a
record of the operations the code calls on it.
-/

/-! ## Image sizes -/

/-- Modelled from the spec: the helper `get_image_height_and_width` lives in
`anomalib.data.utils.image`, which is not among the sources.  Per the spec, a
target size is either a single integer (a square size) or an explicit
(height, width) pair, and "the resolved pipeline's first step resizes to
exactly that height/width". -/
inductive ImageSize where
  | square (n : Nat)
  | hw (height width : Nat)
deriving DecidableEq, Repr

/-- Modelled from the spec: a single integer yields a square
(height, width) pair; an explicit pair is returned as given. -/
def get_image_height_and_width : ImageSize → Nat × Nat
  | .square n => (n, n)
  | .hw h w => (h, w)

instance : ToString ImageSize :=
  ⟨fun
    | .square n => toString n
    | .hw h w => "(" ++ toString h ++ ", " ++ toString w ++ ")"⟩

/-! ## Transforms data model (`transforms.py`) -/

/-- `InputNormalizationMethod` enumeration from `transforms.py`. -/
inductive InputNormalizationMethod where
  | none
  | imagenet
  | clip
deriving DecidableEq, Repr

/-- A single albumentations transform as constructed by `get_transforms`.
`custom` stands for `getattr(A, key)(**value)` built from a structured
config entry; its second field is the opaque keyword-argument payload. -/
inductive Transform where
  | resize (height width : Nat)
  | centerCrop (height width : Nat)
  | normalize (mean std : ℚ × ℚ × ℚ)
  | toFloat (max_value : Nat)
  | toTensorV2
  | custom (name : String) (kwargs : String)
deriving DecidableEq, Repr

/-- `A.Compose`: an ordered list of transforms plus the
`additional_targets` mapping. -/
structure Compose where
  transforms : List Transform
  additional_targets : List (String × String)
deriving DecidableEq, Repr

/-- The `additional_targets` dictionary both `A.Compose` calls in
`get_transforms` pass: `{"image": "image", "depth_image": "image"}`. -/
def additionalTargets : List (String × String) :=
  [("image", "image"), ("depth_image", "image")]

/-- The external `albumentations` library, abstracted to the three
operations `get_transforms` performs on it: `hasattr(A, key)`,
`getattr(A, key)(**value)`, and `A.load(path, data_format="yaml")`. -/
structure ALib where
  hasAttr : String → Bool
  make : String → String → Transform
  load : String → Compose

/-- The `config` argument of `get_transforms`: a structured
`DictConfig` mapping, a file-path string, an already built
`A.Compose`, or a value of any other (unsupported) type. -/
inductive TransformConfig where
  | dictConfig (entries : List (String × String))
  | filePath (path : String)
  | compose (t : Compose)
  | unsupported
deriving DecidableEq, Repr

/-- Exceptions raised by `get_transforms`. -/
inductive TransformError where
  | valueError (msg : String)
  | typeError (msg : String)
deriving DecidableEq, Repr

/-- The message of the `ValueError` raised when both `config` and
`image_size` are `None`. -/
def bothNoneMsg : String :=
  "Both config and image_size cannot be `None`. " ++
  "Provide either config file to de-serialize transforms or image_size to get the default transformations"

/-- The message of the `ValueError` raised when the center crop exceeds the
resize target: `f"Crop size may not be larger than image size. Found " ++
"{image_size} and {center_crop}"` with the original arguments formatted. -/
def cropSizeMsg (image_size center_crop : ImageSize) : String :=
  "Crop size may not be larger than image size. Found " ++
  toString image_size ++ " and " ++ toString center_crop

/-- The normalization transform appended for each enumeration value in the
default (no-config) branch of `get_transforms`: fixed ImageNet / CLIP
statistics, or `A.ToFloat(max_value=255)` for `none`. -/
def normalizationStep : InputNormalizationMethod → Transform
  | .imagenet => .normalize (0.485, 0.456, 0.406) (0.229, 0.224, 0.225)
  | .clip =>
      .normalize (0.48145466, 0.4578275, 0.40821073)
        (0.26862954, 0.26130258, 0.27577711)
  | .none => .toFloat 255

/-- Tail of the default (no-config) branch of `get_transforms`: append the
normalization transform, then `ToTensorV2` when `to_tensor` is true, and
wrap everything in `A.Compose` with the two additional targets. -/
def finishDefault (ts : List Transform) (normalization : InputNormalizationMethod)
    (to_tensor : Bool) : Except TransformError Compose :=
  let ts2 := ts ++ [normalizationStep normalization]
  let ts3 := if to_tensor then ts2 ++ [Transform.toTensorV2] else ts2
  .ok ⟨ts3, additionalTargets⟩

/-- The `for key, value in config.items()` loop of the structured-config
branch: each key is looked up with `hasattr(A, key)`; the first unresolved
key raises `ValueError(f"Transformation " ++ key ++ " is not part of
albumentations")`, otherwise `getattr(A, key)(**value)` is appended. -/
def resolveDictTransforms (lib : ALib) : List (String × String) → Except TransformError (List Transform)
  | [] => .ok []
  | (key, value) :: rest =>
      if lib.hasAttr key then
        (resolveDictTransforms lib rest).map (fun ts => lib.make key value :: ts)
      else
        .error (.valueError ("Transformation " ++ key ++ " is not part of albumentations"))

/-- Shallow embedding of `get_transforms` from
`src/anomalib/data/utils/transforms.py`.  The branches follow the source:
structured config (optional resize prepend, per-key resolution, forced
`ToTensorV2`), file path (`A.load`), pass-through of an `A.Compose`,
`TypeError` otherwise; with no config, a missing `image_size` raises a
`ValueError`, then resize, optional checked center crop, normalization by
enumeration and optional `ToTensorV2` are assembled in order.  (The
`else: raise ValueError("Unknown normalization method: ...")` arm of the
source is unreachable here because the enumeration is closed.) -/
def get_transforms (lib : ALib) (config : Option TransformConfig)
    (image_size : Option ImageSize) (center_crop : Option ImageSize)
    (normalization : InputNormalizationMethod) (to_tensor : Bool) :
    Except TransformError Compose :=
  match config with
  | some cfg =>
    match cfg with
    | .dictConfig entries =>
        let base : List Transform :=
          if !(entries.any (fun kv => kv.1 == "Resize")) then
            match image_size with
            | some sz =>
                let r := get_image_height_and_width sz
                [.resize r.1 r.2]
            | none => []
          else []
        match resolveDictTransforms lib entries with
        | .error e => .error e
        | .ok ts => .ok ⟨base ++ ts ++ [Transform.toTensorV2], additionalTargets⟩
    | .filePath p => .ok (lib.load p)
    | .compose t => .ok t
    | .unsupported => .error (.typeError "config could be either ``str`` or ``A.Compose``")
  | none =>
    match image_size with
    | none => .error (.valueError bothNoneMsg)
    | some sz =>
        let r := get_image_height_and_width sz
        let withResize : List Transform := [.resize r.1 r.2]
        match center_crop with
        | some cc =>
            let c := get_image_height_and_width cc
            if c.1 > r.1 ∨ c.2 > r.2 then
              .error (.valueError (cropSizeMsg sz cc))
            else
              finishDefault (withResize ++ [.centerCrop c.1 c.2]) normalization to_tensor
        | none => finishDefault withResize normalization to_tensor

/-- Claim C8: passing an already-built pipeline object returns that exact
object unchanged, regardless of the `image_size`, `center_crop`,
`normalization` and `to_tensor` arguments. -/
theorem compose_config_passthrough (lib : ALib) (t : Compose)
    (image_size center_crop : Option ImageSize)
    (normalization : InputNormalizationMethod) (to_tensor : Bool) :
    get_transforms lib (some (.compose t)) image_size center_crop normalization to_tensor
      = .ok t := rfl

/-- Claim C3: with no config, the normalization step is determined by the
enumeration value with fixed literal statistics — ImageNet mean
`(0.485, 0.456, 0.406)` and std `(0.229, 0.224, 0.225)`, CLIP mean
`(0.48145466, 0.4578275, 0.40821073)` and std
`(0.26862954, 0.26130258, 0.27577711)` — while `none` yields the pure
scaling step `ToFloat(max_value=255)` instead of a mean/std
normalization. -/
theorem default_normalization_statistics (lib : ALib) (sz : ImageSize) (to_tensor : Bool) :
    (get_transforms lib none (some sz) none .imagenet to_tensor
      = .ok ⟨[Transform.resize (get_image_height_and_width sz).1 (get_image_height_and_width sz).2,
              Transform.normalize (0.485, 0.456, 0.406) (0.229, 0.224, 0.225)]
              ++ (if to_tensor then [Transform.toTensorV2] else []), additionalTargets⟩)
    ∧ (get_transforms lib none (some sz) none .clip to_tensor
      = .ok ⟨[Transform.resize (get_image_height_and_width sz).1 (get_image_height_and_width sz).2,
              Transform.normalize (0.48145466, 0.4578275, 0.40821073)
                (0.26862954, 0.26130258, 0.27577711)]
              ++ (if to_tensor then [Transform.toTensorV2] else []), additionalTargets⟩)
    ∧ (get_transforms lib none (some sz) none .none to_tensor
      = .ok ⟨[Transform.resize (get_image_height_and_width sz).1 (get_image_height_and_width sz).2,
              Transform.toFloat 255]
              ++ (if to_tensor then [Transform.toTensorV2] else []), additionalTargets⟩) := by
  refine ⟨?_, ?_, ?_⟩ <;>
    · simp only [get_transforms, finishDefault, normalizationStep]
      cases to_tensor <;> rfl

/-- Claim C1: with no config, the returned pipeline is exactly resize to the
target height/width, then the center crop when one is given, then the
normalization step selected by the enumeration, then `ToTensorV2` when
`to_tensor` is true, and nothing else, in that order. -/
theorem default_pipeline_order (lib : ALib) (sz : ImageSize)
    (center_crop : Option ImageSize) (normalization : InputNormalizationMethod)
    (to_tensor : Bool)
    (h : ∀ c ∈ center_crop,
      (get_image_height_and_width c).1 ≤ (get_image_height_and_width sz).1 ∧
      (get_image_height_and_width c).2 ≤ (get_image_height_and_width sz).2) :
    get_transforms lib none (some sz) center_crop normalization to_tensor
      = .ok ⟨Transform.resize (get_image_height_and_width sz).1 (get_image_height_and_width sz).2
          :: ((center_crop.toList.map (fun c =>
                Transform.centerCrop (get_image_height_and_width c).1 (get_image_height_and_width c).2))
            ++ [normalizationStep normalization]
            ++ (if to_tensor then [Transform.toTensorV2] else [])),
          additionalTargets⟩ := by
  cases center_crop with
  | none =>
      simp only [get_transforms, finishDefault, Option.toList, List.map_nil, List.nil_append]
      cases to_tensor <;> rfl
  | some cc =>
      obtain ⟨h1, h2⟩ := h cc rfl
      simp only [get_transforms, finishDefault]
      rw [if_neg (by omega)]
      cases to_tensor <;> simp [finishDefault]

/-- Witness for C1 at a concrete input: target size (10, 12), center crop
5×5, ImageNet normalization, tensor conversion on. -/
theorem default_pipeline_order_witness :
    (∀ c ∈ (some (ImageSize.square 5) : Option ImageSize),
      (get_image_height_and_width c).1 ≤ (get_image_height_and_width (ImageSize.hw 10 12)).1 ∧
      (get_image_height_and_width c).2 ≤ (get_image_height_and_width (ImageSize.hw 10 12)).2) ∧
    get_transforms ⟨fun _ => true, .custom, fun _ => ⟨[], []⟩⟩ none
        (some (ImageSize.hw 10 12)) (some (ImageSize.square 5)) .imagenet true
      = .ok ⟨Transform.resize (get_image_height_and_width (ImageSize.hw 10 12)).1
              (get_image_height_and_width (ImageSize.hw 10 12)).2
          :: (((some (ImageSize.square 5) : Option ImageSize).toList.map (fun c =>
                Transform.centerCrop (get_image_height_and_width c).1 (get_image_height_and_width c).2))
            ++ [normalizationStep InputNormalizationMethod.imagenet]
            ++ (if true then [Transform.toTensorV2] else [])),
          additionalTargets⟩ :=
  ⟨by intro c hc; cases hc; exact ⟨by decide, by decide⟩,
   default_pipeline_order ⟨fun _ => true, .custom, fun _ => ⟨[], []⟩⟩
     (ImageSize.hw 10 12) (some (ImageSize.square 5)) .imagenet true
     (by intro c hc; cases hc; exact ⟨by decide, by decide⟩)⟩

/-- Claim C4: with no config, a given `image_size` and a given
`center_crop`, the call fails with the crop-size `ValueError` exactly when
the crop height exceeds the target height or the crop width exceeds the
target width; otherwise the call succeeds and no such error is raised. -/
theorem crop_size_check (lib : ALib) (sz cc : ImageSize)
    (normalization : InputNormalizationMethod) (to_tensor : Bool) :
    get_transforms lib none (some sz) (some cc) normalization to_tensor
      = if (get_image_height_and_width cc).1 > (get_image_height_and_width sz).1
          ∨ (get_image_height_and_width cc).2 > (get_image_height_and_width sz).2
        then .error (.valueError (cropSizeMsg sz cc))
        else .ok ⟨[Transform.resize (get_image_height_and_width sz).1 (get_image_height_and_width sz).2,
                   Transform.centerCrop (get_image_height_and_width cc).1 (get_image_height_and_width cc).2,
                   normalizationStep normalization]
                  ++ (if to_tensor then [Transform.toTensorV2] else []),
                  additionalTargets⟩ := by
  simp only [get_transforms, finishDefault]
  split
  · rfl
  · cases to_tensor <;> simp [finishDefault]

/-- The per-key resolution loop fails with the `ValueError` naming the
first key that `hasattr(A, key)` does not resolve. -/
theorem resolveDictTransforms_first_unresolved (lib : ALib)
    (entries : List (String × String)) (key value : String)
    (h : entries.find? (fun kv => !(lib.hasAttr kv.1)) = some (key, value)) :
    resolveDictTransforms lib entries
      = .error (.valueError ("Transformation " ++ key ++ " is not part of albumentations")) := by
  induction entries with
  | nil => simp [List.find?] at h
  | cons kv rest ih =>
      obtain ⟨k, v⟩ := kv
      rw [List.find?] at h
      cases hk : lib.hasAttr k with
      | true =>
          rw [hk] at h
          simp only [Bool.not_true] at h
          rw [resolveDictTransforms, if_pos hk, ih h]
          rfl
      | false =>
          rw [hk] at h
          simp only [Bool.not_false, Option.some.injEq, Prod.mk.injEq] at h
          rw [resolveDictTransforms, if_neg (by simp [hk]), h.1]

/-- Counterexample to claim C7 as stated: at a concrete structured config
whose single key `Foo` the augmentation library does not resolve, the call
fails with a `ValueError` — the very same exception class as the other
value errors of the function — not with an error kind distinct from a
value error. -/
theorem unresolved_key_raises_plain_value_error :
    get_transforms ⟨fun _ => false, .custom, fun _ => ⟨[], []⟩⟩
        (some (.dictConfig [("Foo", "p1")])) none none .imagenet true
      = .error (.valueError "Transformation Foo is not part of albumentations") := rfl

/-- Claim C7 (amended): for every structured-mapping config, each key is
resolved against the augmentation library's known operation names, and the
call fails with a `ValueError` naming the first unresolved key as soon as
any key is unresolved. -/
theorem unresolved_key_fails_resolution (lib : ALib)
    (entries : List (String × String)) (image_size center_crop : Option ImageSize)
    (normalization : InputNormalizationMethod) (to_tensor : Bool) (key value : String)
    (h : entries.find? (fun kv => !(lib.hasAttr kv.1)) = some (key, value)) :
    get_transforms lib (some (.dictConfig entries)) image_size center_crop normalization to_tensor
      = .error (.valueError ("Transformation " ++ key ++ " is not part of albumentations")) := by
  simp only [get_transforms]
  rw [resolveDictTransforms_first_unresolved lib entries key value h]

/-- Witness for the amended C7 at a concrete input: the library resolves
`Blur` but not `Foo`, so the call fails naming `Foo`. -/
theorem unresolved_key_fails_resolution_witness :
    ([("Blur", "p0"), ("Foo", "p1")].find?
        (fun kv => !((fun s => s == "Blur") kv.1)) = some ("Foo", "p1")) ∧
    get_transforms ⟨fun s => s == "Blur", .custom, fun _ => ⟨[], []⟩⟩
        (some (.dictConfig [("Blur", "p0"), ("Foo", "p1")]))
        (some (ImageSize.square 8)) none .clip false
      = .error (.valueError ("Transformation " ++ "Foo" ++ " is not part of albumentations")) :=
  ⟨by decide,
   unresolved_key_fails_resolution ⟨fun s => s == "Blur", .custom, fun _ => ⟨[], []⟩⟩
     [("Blur", "p0"), ("Foo", "p1")] (some (ImageSize.square 8)) none .clip false
     "Foo" "p1" (by decide)⟩

/-- Claim C9: for a structured-mapping config, the resulting pipeline ends
with `ToTensorV2` even when `to_tensor` is false, and `center_crop`,
`normalization` and `to_tensor` have no effect on the result in this
branch. -/
theorem dict_config_ends_with_tensor (lib : ALib)
    (entries : List (String × String)) (image_size : Option ImageSize)
    (center_crop center_crop2 : Option ImageSize)
    (normalization normalization2 : InputNormalizationMethod)
    (to_tensor to_tensor2 : Bool) (p : Compose)
    (h : get_transforms lib (some (.dictConfig entries)) image_size center_crop normalization to_tensor
          = .ok p) :
    p.transforms.getLast? = some Transform.toTensorV2
    ∧ get_transforms lib (some (.dictConfig entries)) image_size center_crop2 normalization2 to_tensor2
        = .ok p := by
  have hsame : get_transforms lib (some (.dictConfig entries)) image_size center_crop2 normalization2 to_tensor2
      = get_transforms lib (some (.dictConfig entries)) image_size center_crop normalization to_tensor := rfl
  refine ⟨?_, by rw [hsame, h]⟩
  simp only [get_transforms] at h
  cases hr : resolveDictTransforms lib entries with
  | error e => rw [hr] at h; exact absurd h (by simp)
  | ok ts =>
      rw [hr] at h
      simp only [Except.ok.injEq] at h
      rw [← h]
      exact List.getLast?_concat _

/-- Witness for C9 at a concrete input: a single resolvable key `Blur`,
no image size, `to_tensor = false`; the result still ends with
`ToTensorV2` and is unchanged under different crop/normalization/tensor
arguments. -/
theorem dict_config_ends_with_tensor_witness :
    (get_transforms ⟨fun _ => true, .custom, fun _ => ⟨[], []⟩⟩
        (some (.dictConfig [("Blur", "p0")])) none none .imagenet false
      = .ok ⟨[Transform.custom "Blur" "p0", Transform.toTensorV2], additionalTargets⟩) ∧
    (⟨[Transform.custom "Blur" "p0", Transform.toTensorV2], additionalTargets⟩ : Compose).transforms.getLast?
        = some Transform.toTensorV2 ∧
    get_transforms ⟨fun _ => true, .custom, fun _ => ⟨[], []⟩⟩
        (some (.dictConfig [("Blur", "p0")])) none (some (ImageSize.square 3)) .clip true
      = .ok ⟨[Transform.custom "Blur" "p0", Transform.toTensorV2], additionalTargets⟩ :=
  ⟨rfl,
   dict_config_ends_with_tensor ⟨fun _ => true, .custom, fun _ => ⟨[], []⟩⟩
     [("Blur", "p0")] none none (some (ImageSize.square 3)) .imagenet .clip false true
     ⟨[Transform.custom "Blur" "p0", Transform.toTensorV2], additionalTargets⟩ rfl⟩

/-! ## Logger resolver data model (`loggers/__init__.py`) -/

/-- The `trainer.logger` field of the run configuration: missing from the
trainer section, `None`, `False`, a single backend name, or a list of
backend names. -/
inductive LoggerField where
  | absent
  | nullVal
  | falseVal
  | strVal (s : String)
  | listVal (names : List String)
deriving DecidableEq, Repr

instance : ToString LoggerField :=
  ⟨fun
    | .absent => "<absent>"
    | .nullVal => "None"
    | .falseVal => "False"
    | .strVal s => s
    | .listVal names => toString names⟩

/-- The backend names iterated over, `strVal` as its one-element list;
`none` when the field disables logging. -/
def LoggerField.names : LoggerField → Option (List String)
  | .strVal s => some [s]
  | .listVal l => some l
  | _ => none

/-- `trainer` section of the run configuration. -/
structure TrainerSection where
  logger : LoggerField
deriving DecidableEq, Repr

/-- `project` section of the run configuration. -/
structure ProjectSection where
  path : String
deriving DecidableEq, Repr

/-- `model` section of the run configuration. -/
structure ModelSection where
  class_path : String
  name : String
deriving DecidableEq, Repr

/-- `data.init_args` section; `category` is `none` when the key
`"category"` is not in `config.data.init_args`. -/
structure InitArgsSection where
  category : Option String
deriving DecidableEq, Repr

/-- `data` section of the run configuration. -/
structure DataSection where
  class_path : String
  init_args : InitArgsSection
deriving DecidableEq, Repr

/-- The nested run configuration consumed by `get_experiment_logger`. -/
structure RunConfig where
  trainer : TrainerSection
  project : ProjectSection
  model : ModelSection
  data : DataSection
deriving DecidableEq, Repr

/-- `AVAILABLE_LOGGERS` from `loggers/__init__.py`. -/
def AVAILABLE_LOGGERS : List String := ["tensorboard", "wandb", "csv", "comet"]

/-- A constructed experiment logger adapter with the arguments the source
passes to each backend constructor. -/
inductive ExperimentLogger where
  | tensorboard (name save_dir : String) (log_graph : Bool)
  | wandb (project name save_dir : String)
  | comet (project_name experiment_name save_dir : String)
  | csv (save_dir : String)
deriving DecidableEq, Repr

/-- `s.split(".")[-1]`: the last dot-separated component of a string. -/
def lastComponent (s : String) : String := (s.splitOn ".").getLastD ""

/-- One iteration of the dispatch on the backend name: the adapter the
source constructs for a recognized name, `none` for an unknown name. -/
def makeLogger (config : RunConfig) (experiment_logger : String) : Option ExperimentLogger :=
  if experiment_logger == "tensorboard" then
    some (.tensorboard "Tensorboard Logs" (config.project.path ++ "/logs") false)
  else if experiment_logger == "wandb" then
    let wandb_logdir := config.project.path ++ "/logs"
    let name :=
      match config.data.init_args.category with
      | none => lastComponent config.model.class_path
      | some cat => cat ++ " " ++ lastComponent config.model.class_path
    some (.wandb (lastComponent config.data.class_path) name wandb_logdir)
  else if experiment_logger == "comet" then
    let comet_logdir := config.project.path ++ "/logs"
    let run_name :=
      match config.data.init_args.category with
      | none => config.model.name
      | some cat => cat ++ " " ++ lastComponent config.model.class_path
    some (.comet (lastComponent config.data.class_path) run_name comet_logdir)
  else if experiment_logger == "csv" then
    some (.csv (config.project.path ++ "/logs"))
  else none

/-- The message of the `UnknownLoggerError`, formatted from the (already
normalized) `trainer.logger` field and `AVAILABLE_LOGGERS`. -/
def unknownLoggerMsg (config : RunConfig) : String :=
  "Unknown logger type: " ++ toString config.trainer.logger ++
  ". Available loggers are: " ++ toString AVAILABLE_LOGGERS ++ ".\n" ++
  "To enable the logger, set `project.logger` to `true` or use one of available loggers in " ++
  "config.yaml\nTo disable the logger, set `project.logger` to `false`."

/-- The `list[Logger] | bool` result of `get_experiment_logger`:
`disabled` stands for the returned `False`. -/
inductive LoggerResult where
  | disabled
  | adapters (l : List ExperimentLogger)
deriving DecidableEq, Repr

/-- Outcome of a call to `get_experiment_logger`, carrying the post-call
configuration: either a normal return, or the `UnknownLoggerError` along
with the adapters already constructed before the raise. -/
inductive LoggerOutcome where
  | ret (config : RunConfig) (result : LoggerResult)
  | unknownLoggerError (msg : String) (config : RunConfig) (built : List ExperimentLogger)
deriving DecidableEq, Repr

/-- The `config.trainer.logger = [config.trainer.logger]` normalization
the source performs when the field is a single string. -/
def normalizeLoggerField (config : RunConfig) : RunConfig :=
  match config.trainer.logger with
  | .strVal s => { config with trainer := { config.trainer with logger := .listVal [s] } }
  | _ => config

/-- Sets the `trainer.logger` field, used to model `del config.trainer.logger`
as setting the field to `absent`. -/
def deleteLoggerField (config : RunConfig) : RunConfig :=
  { config with trainer := { config.trainer with logger := .absent } }

/-- The `for experiment_logger in config.trainer.logger` loop: recognized
names append their adapter; the first unknown name raises
`UnknownLoggerError`; after the loop `del config.trainer.logger` runs and
the accumulated list is returned. -/
def loggerLoop (config : RunConfig) (acc : List ExperimentLogger) :
    List String → LoggerOutcome
  | [] => .ret (deleteLoggerField config) (.adapters acc)
  | name :: rest =>
      match makeLogger config name with
      | some l => loggerLoop config (acc ++ [l]) rest
      | none => .unknownLoggerError (unknownLoggerMsg config) config acc

/-- Shallow embedding of `get_experiment_logger` from
`src/anomalib/loggers/__init__.py`: return `False` at once when the
`logger` key is not in the trainer section or is `None`/`False`; replace a
single string by a one-element list in place; dispatch each name to its
adapter constructor, raising `UnknownLoggerError` on an unknown name; on
normal completion delete the `trainer.logger` key and return the adapter
list. -/
def get_experiment_logger (config : RunConfig) : LoggerOutcome :=
  match config.trainer.logger with
  | .absent => .ret config .disabled
  | .nullVal => .ret config .disabled
  | .falseVal => .ret config .disabled
  | .strVal s =>
      loggerLoop (normalizeLoggerField config) [] [s]
  | .listVal names =>
      loggerLoop config [] names

/-- Claim C6: when `trainer.logger` is absent, `None` or `False`, the call
returns `False`, leaves the configuration untouched and constructs no
logger adapter. -/
theorem disabled_logger_returns_false (config : RunConfig)
    (h : config.trainer.logger = .absent ∨ config.trainer.logger = .nullVal
        ∨ config.trainer.logger = .falseVal) :
    get_experiment_logger config = .ret config .disabled := by
  rcases h with h | h | h <;> simp [get_experiment_logger, h]

/-- Witness for C6 at a concrete configuration whose `trainer.logger`
is `None`. -/
theorem disabled_logger_returns_false_witness :
    ((⟨⟨.nullVal⟩, ⟨"proj"⟩, ⟨"pkg.Model", "Model"⟩, ⟨"pkg.Data", ⟨none⟩⟩⟩ : RunConfig).trainer.logger
        = .absent
      ∨ (⟨⟨.nullVal⟩, ⟨"proj"⟩, ⟨"pkg.Model", "Model"⟩, ⟨"pkg.Data", ⟨none⟩⟩⟩ : RunConfig).trainer.logger
        = .nullVal
      ∨ (⟨⟨.nullVal⟩, ⟨"proj"⟩, ⟨"pkg.Model", "Model"⟩, ⟨"pkg.Data", ⟨none⟩⟩⟩ : RunConfig).trainer.logger
        = .falseVal) ∧
    get_experiment_logger ⟨⟨.nullVal⟩, ⟨"proj"⟩, ⟨"pkg.Model", "Model"⟩, ⟨"pkg.Data", ⟨none⟩⟩⟩
      = .ret ⟨⟨.nullVal⟩, ⟨"proj"⟩, ⟨"pkg.Model", "Model"⟩, ⟨"pkg.Data", ⟨none⟩⟩⟩ .disabled :=
  ⟨Or.inr (Or.inl rfl),
   disabled_logger_returns_false ⟨⟨.nullVal⟩, ⟨"proj"⟩, ⟨"pkg.Model", "Model"⟩, ⟨"pkg.Data", ⟨none⟩⟩⟩
     (Or.inr (Or.inl rfl))⟩

/-- Counterexample to claim C2 as stated: at a configuration whose
`trainer.logger` is `None`, the call returns normally (with `False`), yet
the `trainer.logger` field still exists afterwards — the disabled branch
returns before the deletion runs. -/
theorem disabled_return_keeps_logger_key :
    get_experiment_logger ⟨⟨.nullVal⟩, ⟨"p"⟩, ⟨"a.M", "M"⟩, ⟨"b.D", ⟨none⟩⟩⟩
      = .ret ⟨⟨.nullVal⟩, ⟨"p"⟩, ⟨"a.M", "M"⟩, ⟨"b.D", ⟨none⟩⟩⟩ .disabled
    ∧ (⟨⟨.nullVal⟩, ⟨"p"⟩, ⟨"a.M", "M"⟩, ⟨"b.D", ⟨none⟩⟩⟩ : RunConfig).trainer.logger
        ≠ .absent := ⟨rfl, by decide⟩

/-- Whether the outcome is the raised `UnknownLoggerError`. -/
def LoggerOutcome.isError : LoggerOutcome → Bool
  | .unknownLoggerError _ _ _ => true
  | .ret _ _ => false

/-- The message of the raised `UnknownLoggerError`, when one was raised. -/
def LoggerOutcome.errMsg : LoggerOutcome → Option String
  | .unknownLoggerError m _ _ => some m
  | .ret _ _ => none

/-- Any normal return of the dispatch loop carries the configuration with
the `trainer.logger` key deleted. -/
theorem loggerLoop_ret_config (c : RunConfig) :
    ∀ (names : List String) (acc : List ExperimentLogger) (c2 : RunConfig)
      (r : LoggerResult),
    loggerLoop c acc names = .ret c2 r → c2 = deleteLoggerField c := by
  intro names
  induction names with
  | nil =>
      intro acc c2 r h
      cases h
      rfl
  | cons name rest ih =>
      intro acc c2 r h
      cases hm : makeLogger c name with
      | some l =>
          simp only [loggerLoop, hm] at h
          exact ih _ _ _ h
      | none =>
          simp only [loggerLoop, hm] at h
          exact absurd h (by simp)

/-- The dispatch loop raises exactly when some name fails `makeLogger`. -/
theorem loggerLoop_isError (c : RunConfig) :
    ∀ (names : List String) (acc : List ExperimentLogger),
    (loggerLoop c acc names).isError
      = names.any (fun n => !(makeLogger c n).isSome) := by
  intro names
  induction names with
  | nil => intro acc; rfl
  | cons name rest ih =>
      intro acc
      cases hm : makeLogger c name with
      | some l =>
          simp only [loggerLoop, hm, List.any_cons, Option.isSome_some,
            Bool.not_true, Bool.false_or]
          exact ih _
      | none =>
          simp only [loggerLoop, hm, List.any_cons, Option.isSome_none,
            Bool.not_false, Bool.true_or]
          rfl

/-- When the dispatch loop raises, its message is the unknown-logger
message formatted from the configuration the loop runs on. -/
theorem loggerLoop_errMsg (c : RunConfig) :
    ∀ (names : List String) (acc : List ExperimentLogger),
    (loggerLoop c acc names).errMsg
      = (if names.any (fun n => !(makeLogger c n).isSome)
         then some (unknownLoggerMsg c) else none) := by
  intro names
  induction names with
  | nil => intro acc; rfl
  | cons name rest ih =>
      intro acc
      cases hm : makeLogger c name with
      | some l =>
          simp only [loggerLoop, hm, List.any_cons, Option.isSome_some,
            Bool.not_true, Bool.false_or]
          exact ih _
      | none =>
          simp only [loggerLoop, hm, List.any_cons, Option.isSome_none,
            Bool.not_false, Bool.true_or]
          rfl

/-- When the dispatch loop raises, the raise happens on the configuration
it was given, and the adapters accumulated so far are those of the longest
recognized prefix of the names. -/
theorem loggerLoop_error_parts (c : RunConfig) :
    ∀ (names : List String) (acc : List ExperimentLogger) (msg : String)
      (c2 : RunConfig) (built : List ExperimentLogger),
    loggerLoop c acc names = .unknownLoggerError msg c2 built →
    msg = unknownLoggerMsg c ∧ c2 = c
      ∧ built = acc ++ (names.takeWhile (fun n => (makeLogger c n).isSome)).filterMap
          (makeLogger c) := by
  intro names
  induction names with
  | nil =>
      intro acc msg c2 built h
      exact absurd h (by simp [loggerLoop])
  | cons name rest ih =>
      intro acc msg c2 built h
      cases hm : makeLogger c name with
      | some l =>
          simp only [loggerLoop, hm] at h
          obtain ⟨h1, h2, h3⟩ := ih _ _ _ _ h
          refine ⟨h1, h2, ?_⟩
          simp [h3, List.takeWhile_cons, hm]
      | none =>
          simp only [loggerLoop, hm] at h
          cases h
          refine ⟨rfl, rfl, ?_⟩
          simp [List.takeWhile_cons, hm]

/-- A backend name is recognized by the dispatch exactly when it belongs to
`AVAILABLE_LOGGERS`. -/
theorem makeLogger_isSome (c : RunConfig) (n : String) :
    (makeLogger c n).isSome = AVAILABLE_LOGGERS.contains n := by
  by_cases h1 : n = "tensorboard" <;> by_cases h2 : n = "wandb"
    <;> by_cases h3 : n = "comet" <;> by_cases h4 : n = "csv"
    <;> simp_all [makeLogger, AVAILABLE_LOGGERS, List.contains_cons]

/-- Claim C2 (amended): whenever `get_experiment_logger` returns a list of
adapters, the returned configuration no longer carries the
`trainer.logger` key.  (When it returns `False`, the configuration is
returned untouched, so the key may still exist.) -/
theorem adapters_return_deletes_logger_key (config c2 : RunConfig)
    (l : List ExperimentLogger)
    (h : get_experiment_logger config = .ret c2 (.adapters l)) :
    c2.trainer.logger = .absent := by
  cases hf : config.trainer.logger
    <;> simp only [get_experiment_logger, hf] at h
  case absent | nullVal | falseVal => simp at h
  case strVal s =>
      rw [loggerLoop_ret_config _ _ _ _ _ h]
      rfl
  case listVal names =>
      rw [loggerLoop_ret_config _ _ _ _ _ h]
      rfl

/-- Witness for the amended C2 at a concrete configuration selecting the
`csv` backend. -/
theorem adapters_return_deletes_logger_key_witness :
    get_experiment_logger ⟨⟨.listVal ["csv"]⟩, ⟨"p"⟩, ⟨"a.M", "M"⟩, ⟨"b.D", ⟨none⟩⟩⟩
      = .ret ⟨⟨.absent⟩, ⟨"p"⟩, ⟨"a.M", "M"⟩, ⟨"b.D", ⟨none⟩⟩⟩
          (.adapters [.csv "p/logs"]) ∧
    (⟨⟨.absent⟩, ⟨"p"⟩, ⟨"a.M", "M"⟩, ⟨"b.D", ⟨none⟩⟩⟩ : RunConfig).trainer.logger
      = .absent :=
  ⟨by decide,
   adapters_return_deletes_logger_key
     ⟨⟨.listVal ["csv"]⟩, ⟨"p"⟩, ⟨"a.M", "M"⟩, ⟨"b.D", ⟨none⟩⟩⟩
     ⟨⟨.absent⟩, ⟨"p"⟩, ⟨"a.M", "M"⟩, ⟨"b.D", ⟨none⟩⟩⟩
     [.csv "p/logs"] (by decide)⟩

/-- Claim C5: the supported set is exactly
`["tensorboard", "wandb", "csv", "comet"]`; the call raises the
unknown-logger error — whose message is formatted from that list — exactly
when some selected name falls outside the set, and raises nothing
otherwise. -/
theorem unknown_logger_error_condition (config : RunConfig) (ns : List String)
    (h : config.trainer.logger.names = some ns) :
    AVAILABLE_LOGGERS = ["tensorboard", "wandb", "csv", "comet"]
    ∧ (get_experiment_logger config).isError
        = ns.any (fun n => !(AVAILABLE_LOGGERS.contains n))
    ∧ (get_experiment_logger config).errMsg
        = (if ns.any (fun n => !(AVAILABLE_LOGGERS.contains n))
           then some (unknownLoggerMsg (normalizeLoggerField config)) else none) := by
  refine ⟨rfl, ?_, ?_⟩
  all_goals
    cases hf : config.trainer.logger
      <;> simp only [LoggerField.names, hf] at h
      <;> cases h
  · simp only [get_experiment_logger, hf, loggerLoop_isError]
    simp [makeLogger_isSome, normalizeLoggerField, hf]
  · simp only [get_experiment_logger, hf, loggerLoop_isError]
    simp [makeLogger_isSome, normalizeLoggerField, hf]
  · simp only [get_experiment_logger, hf, loggerLoop_errMsg]
    simp [makeLogger_isSome, normalizeLoggerField, hf]
  · simp only [get_experiment_logger, hf, loggerLoop_errMsg]
    simp [makeLogger_isSome, normalizeLoggerField, hf]

/-- Witness for C5 at a concrete configuration selecting `tensorboard`
followed by the unknown name `nope`. -/
theorem unknown_logger_error_condition_witness :
    ((⟨⟨.listVal ["tensorboard", "nope"]⟩, ⟨"p"⟩, ⟨"a.M", "M"⟩, ⟨"b.D", ⟨none⟩⟩⟩ : RunConfig).trainer.logger.names
        = some ["tensorboard", "nope"]) ∧
    (AVAILABLE_LOGGERS = ["tensorboard", "wandb", "csv", "comet"]
    ∧ (get_experiment_logger ⟨⟨.listVal ["tensorboard", "nope"]⟩, ⟨"p"⟩, ⟨"a.M", "M"⟩, ⟨"b.D", ⟨none⟩⟩⟩).isError
        = (["tensorboard", "nope"].any (fun n => !(AVAILABLE_LOGGERS.contains n)))
    ∧ (get_experiment_logger ⟨⟨.listVal ["tensorboard", "nope"]⟩, ⟨"p"⟩, ⟨"a.M", "M"⟩, ⟨"b.D", ⟨none⟩⟩⟩).errMsg
        = (if ["tensorboard", "nope"].any (fun n => !(AVAILABLE_LOGGERS.contains n))
           then some (unknownLoggerMsg (normalizeLoggerField
             ⟨⟨.listVal ["tensorboard", "nope"]⟩, ⟨"p"⟩, ⟨"a.M", "M"⟩, ⟨"b.D", ⟨none⟩⟩⟩))
           else none)) :=
  ⟨rfl,
   unknown_logger_error_condition
     ⟨⟨.listVal ["tensorboard", "nope"]⟩, ⟨"p"⟩, ⟨"a.M", "M"⟩, ⟨"b.D", ⟨none⟩⟩⟩
     ["tensorboard", "nope"] rfl⟩

/-- Claim C10: when the unknown-logger error is raised the call is not
atomic — the error carries the configuration with its `trainer.logger` key
still present (an originally single string having been replaced in place
by a one-element list), and the adapters of the recognized names before
the unknown one have already been constructed. -/
theorem unknown_logger_error_not_atomic (config c2 : RunConfig) (msg : String)
    (built : List ExperimentLogger)
    (h : get_experiment_logger config = .unknownLoggerError msg c2 built) :
    c2 = normalizeLoggerField config
    ∧ c2.trainer.logger ≠ LoggerField.absent
    ∧ (match config.trainer.logger with
       | .strVal s => c2.trainer.logger = .listVal [s]
       | _ => True)
    ∧ (∃ ns, c2.trainer.logger.names = some ns
        ∧ built = (ns.takeWhile (fun n => (makeLogger c2 n).isSome)).filterMap
            (makeLogger c2)) := by
  cases hf : config.trainer.logger
  case absent | nullVal | falseVal =>
      simp only [get_experiment_logger, hf] at h
      simp at h
  case strVal s =>
      simp only [get_experiment_logger, hf] at h
      have hn : normalizeLoggerField config
          = { config with trainer := { config.trainer with logger := .listVal [s] } } := by
        simp [normalizeLoggerField, hf]
      obtain ⟨h1, h2, h3⟩ := loggerLoop_error_parts _ _ _ _ _ _ h
      refine ⟨h2, ?_, ?_, ⟨[s], ?_, ?_⟩⟩
      · rw [h2, hn]; simp
      · show c2.trainer.logger = LoggerField.listVal [s]
        rw [h2, hn]
      · rw [h2, hn]; rfl
      · rw [h3, h2]; simp
  case listVal names =>
      simp only [get_experiment_logger, hf] at h
      have hn : normalizeLoggerField config = config := by
        simp [normalizeLoggerField, hf]
      obtain ⟨h1, h2, h3⟩ := loggerLoop_error_parts _ _ _ _ _ _ h
      refine ⟨by rw [h2, hn], ?_, ?_, ⟨names, ?_, ?_⟩⟩
      · rw [h2, hf]; simp
      · trivial
      · rw [h2, hf]; rfl
      · rw [h3, h2]; simp

set_option maxRecDepth 8192 in
/-- Witness for C10 at a concrete configuration whose `trainer.logger` is
the single unknown string `foo`. -/
theorem unknown_logger_error_not_atomic_witness :
    get_experiment_logger ⟨⟨.strVal "foo"⟩, ⟨"p"⟩, ⟨"a.M", "M"⟩, ⟨"b.D", ⟨none⟩⟩⟩
      = .unknownLoggerError
          (unknownLoggerMsg ⟨⟨.listVal ["foo"]⟩, ⟨"p"⟩, ⟨"a.M", "M"⟩, ⟨"b.D", ⟨none⟩⟩⟩)
          ⟨⟨.listVal ["foo"]⟩, ⟨"p"⟩, ⟨"a.M", "M"⟩, ⟨"b.D", ⟨none⟩⟩⟩ [] ∧
    ((⟨⟨.listVal ["foo"]⟩, ⟨"p"⟩, ⟨"a.M", "M"⟩, ⟨"b.D", ⟨none⟩⟩⟩ : RunConfig)
        = normalizeLoggerField ⟨⟨.strVal "foo"⟩, ⟨"p"⟩, ⟨"a.M", "M"⟩, ⟨"b.D", ⟨none⟩⟩⟩
    ∧ (⟨⟨.listVal ["foo"]⟩, ⟨"p"⟩, ⟨"a.M", "M"⟩, ⟨"b.D", ⟨none⟩⟩⟩ : RunConfig).trainer.logger
        ≠ LoggerField.absent
    ∧ (match (⟨⟨.strVal "foo"⟩, ⟨"p"⟩, ⟨"a.M", "M"⟩, ⟨"b.D", ⟨none⟩⟩⟩ : RunConfig).trainer.logger with
       | .strVal s =>
           (⟨⟨.listVal ["foo"]⟩, ⟨"p"⟩, ⟨"a.M", "M"⟩, ⟨"b.D", ⟨none⟩⟩⟩ : RunConfig).trainer.logger
             = .listVal [s]
       | _ => True)
    ∧ (∃ ns, (⟨⟨.listVal ["foo"]⟩, ⟨"p"⟩, ⟨"a.M", "M"⟩, ⟨"b.D", ⟨none⟩⟩⟩ : RunConfig).trainer.logger.names
            = some ns
        ∧ ([] : List ExperimentLogger)
            = (ns.takeWhile (fun n =>
                (makeLogger ⟨⟨.listVal ["foo"]⟩, ⟨"p"⟩, ⟨"a.M", "M"⟩, ⟨"b.D", ⟨none⟩⟩⟩ n).isSome)).filterMap
              (makeLogger ⟨⟨.listVal ["foo"]⟩, ⟨"p"⟩, ⟨"a.M", "M"⟩, ⟨"b.D", ⟨none⟩⟩⟩))) :=
  ⟨by decide,
   unknown_logger_error_not_atomic
     ⟨⟨.strVal "foo"⟩, ⟨"p"⟩, ⟨"a.M", "M"⟩, ⟨"b.D", ⟨none⟩⟩⟩
     ⟨⟨.listVal ["foo"]⟩, ⟨"p"⟩, ⟨"a.M", "M"⟩, ⟨"b.D", ⟨none⟩⟩⟩
     (unknownLoggerMsg ⟨⟨.listVal ["foo"]⟩, ⟨"p"⟩, ⟨"a.M", "M"⟩, ⟨"b.D", ⟨none⟩⟩⟩)
     [] (by decide)⟩
